import Mathlib

/-!
Shallow embedding of `pybea/client.py` (the BureauEconomicAnalysisClient
class): the client state, the format property getter/setter, the generic
`_make_request` dispatch routine, and the per-dataset parameter builders.
Each definition mirrors the corresponding Python code line by line.
-/

set_option autoImplicit false

namespace PyBEA

/-- A Python value that can appear as an argument to a dataset method or as a
value in the `params` dictionary: a string, an integer, or a list of strings
(the only list shape the client ever receives per its signatures). -/
inductive PyVal where
  | str (s : String)
  | int (n : Int)
  | list (xs : List String)
  deriving Repr, DecidableEq

/-- Python `",".join(xs)` for a list of strings. -/
def commaJoinList (xs : List String) : String :=
  String.intercalate "," xs

/-- Python `",".join(s)` for a string `s`: a string is an iterable of its
characters, so the characters are joined with commas (e.g. `"2019"` becomes
`"2,0,1,9"`). -/
def commaJoinStr (s : String) : String :=
  String.intercalate "," (s.toList.map (fun c => String.singleton c))

/-- Python `",".join(v)`, applied by the client to values that are strings or
lists of strings.  (On an `int`, Python would raise a `TypeError`; the client
never reaches that case for the argument types its signatures document, and we
keep the definition total by returning the value unchanged there.) -/
def pyJoin : PyVal → PyVal
  | .str s => .str (commaJoinStr s)
  | .list xs => .str (commaJoinList xs)
  | .int n => .int n

/-- The `if isinstance(x, list): x = ",".join(x)` idiom used by most dataset
methods: join a list into a comma-separated string, leave anything else
untouched. -/
def joinIfList : PyVal → PyVal
  | .list xs => .str (commaJoinList xs)
  | v => v

/-- The `if x != "ALL": x = ",".join(x)` idiom used by
`underlying_gdp_by_industry` and `international_trade_services` for the
`year` argument: anything different from the string `"ALL"` (including a
scalar string such as `"2019"`) is comma-joined. -/
def joinUnlessAll (v : PyVal) : PyVal :=
  if v = .str "ALL" then v else pyJoin v

/-- Is this value a (scalar) string? -/
def PyVal.isStr : PyVal → Bool
  | .str _ => true
  | _ => false

/-- Is this value a string or a list (the two shapes a list-or-sentinel
filter argument can take per the method signatures)? -/
def strOrList : PyVal → Bool
  | .str _ => true
  | .list _ => true
  | .int _ => false

/-- First value stored under `key` in a Python-dict-as-association-list
(keys inserted by the client are distinct, so first = only). -/
def lookupParam (key : String) : List (String × PyVal) → Option PyVal
  | [] => none
  | (k, v) :: rest => if k = key then some v else lookupParam key rest

/-- All values in the parameter mapping are scalar strings. -/
def allStrVals (ps : List (String × PyVal)) : Bool :=
  ps.all (fun kv => kv.2.isStr)

/-- All values are scalar strings except possibly those stored under one of
the listed keys. -/
def strValsExcept (keys : List String) (ps : List (String × PyVal)) : Bool :=
  ps.all (fun kv => keys.contains kv.1 || kv.2.isStr)

/-- The client state: the fields set by `__init__` (`bea_url`, `api_key`,
`_format`, `authstate`).  `authstate` is `True` exactly when the key is a
truthy (non-empty) string. -/
structure BureauEconomicAnalysisClient where
  bea_url : String
  api_key : String
  fmt : String
  authstate : Bool
  deriving Repr, DecidableEq

/-- `__init__`: stores the base URL and key, defaults the format to `"JSON"`,
and computes `authstate` from the truthiness of `api_key`. -/
def mkClient (api_key : String) : BureauEconomicAnalysisClient :=
  { bea_url := "https://apps.bea.gov/api/data/"
    api_key := api_key
    fmt := "JSON"
    authstate := api_key != "" }

/-- The exceptions the client can raise: `ValueError` from the format setter
(the spec's `InvalidFormat`) and `requests.ConnectionError` from
`_make_request` (the spec's `ConnectionFailure`). -/
inductive PyExn where
  | valueError
  | connectionError
  deriving Repr, DecidableEq

/-- The `format` property getter: returns `self._format`. -/
def BureauEconomicAnalysisClient.format (c : BureauEconomicAnalysisClient) : String :=
  c.fmt

/-- Python `value.upper()`: map every character to its upper-case form.
(Modelled over the ASCII mapping `Char.toUpper`; defined by structural
recursion on the character list so that it evaluates by `rfl`/`decide`.) -/
def pyUpper (s : String) : String :=
  ⟨s.data.map Char.toUpper⟩

/-- The `format` property setter: raises `ValueError` (leaving the client as
it was, since the raise precedes the assignment) when the uppercased value is
not `"JSON"` or `"XML"`, and otherwise stores the uppercased value.  The
result pairs the raised exception (if any) with the post-call client state. -/
def format_set (c : BureauEconomicAnalysisClient) (value : String) :
    Option PyExn × BureauEconomicAnalysisClient :=
  if (["JSON", "XML"].contains (pyUpper value)) = false then
    (some .valueError, c)
  else
    (none, { c with fmt := pyUpper value })

/-- A parsed JSON structure, as returned by `response.json()`.  The client
never inspects it, so only its identity matters. -/
inductive Json where
  | null
  | bool (b : Bool)
  | num (n : Int)
  | str (s : String)
  | arr (xs : List Json)
  | obj (kvs : List (String × Json))

/-- What `request_session.send` yields: either an HTTP response (with its
`ok` flag, the structure `response.json()` would parse, and the raw
`response.text`), or an exception raised by the send itself (DNS failure,
refused connection, ...). -/
structure HttpResp where
  ok : Bool
  jsonBody : Json
  textBody : String

/-- Outcome of the transport-level send. -/
inductive TransportOutcome where
  | response (r : HttpResp)
  | raised

/-- How `_make_request` finishes: return the parsed JSON, return the raw
text, raise `requests.ConnectionError` itself, or let the exception raised
by `session.send` propagate out. -/
inductive DispatchResult where
  | retJson (v : Json)
  | retText (s : String)
  | raiseConnectionError
  | sendExnPropagates

/-- The prepared request: `requests.Request(method=method.upper(),
url=self.bea_url, params=params).prepare()`. -/
structure PreparedRequest where
  verb : String
  url : String
  params : List (String × PyVal)
  deriving Repr

/-- Build the prepared request exactly as `_make_request` does
(`method.upper()` as the HTTP verb, `self.bea_url` as the URL). -/
def prepareRequest (c : BureauEconomicAnalysisClient) (method : String)
    (params : List (String × PyVal)) : PreparedRequest :=
  { verb := pyUpper method, url := c.bea_url, params := params }

/-- One run of `_make_request`: the request it prepared and sent, how the
call finished, whether `request_session.close()` ran, and the client state
after the call. -/
structure MakeRequestRun where
  request : PreparedRequest
  result : DispatchResult
  sessionClosed : Bool
  selfAfter : BureauEconomicAnalysisClient

/-- `_make_request`, as a function of the transport outcome.  Mirrors the
source control flow: the session is opened, the request prepared and sent;
`close()` is the next statement after the send, so it runs whenever the send
returns a response (before the `ok` check) but never when the send itself
raises.  No field of `self` is assigned anywhere in the body, so the client
is threaded through unchanged. -/
def make_request (c : BureauEconomicAnalysisClient) (method : String)
    (params : List (String × PyVal)) (t : TransportOutcome) : MakeRequestRun :=
  { request := prepareRequest c method params
    result :=
      match t with
      | .raised => .sendExnPropagates
      | .response r =>
          if r.ok && c.fmt == "JSON" then .retJson r.jsonBody
          else if r.ok && c.fmt == "XML" then .retText r.textBody
          else .raiseConnectionError
    sessionClosed :=
      match t with
      | .raised => false
      | .response _ => true
    selfAfter := c }

/-! ### Per-dataset parameter builders

One definition per dataset method, building exactly the `params` dictionary
the Python method builds (same keys, same order, same conversions), from the
client's `api_key` and `_format` plus the method's arguments. -/

/-- `get_dataset_list`: note the source spells the keys `UserID` and
`ResultFormat` here (capitalised), unlike every other method. -/
def get_dataset_list_params (key fmt : String) : List (String × PyVal) :=
  [("UserID", .str key),
   ("method", .str "GETDATASETLIST"),
   ("ResultFormat", .str fmt)]

/-- `get_parameters_list`. -/
def get_parameters_list_params (key fmt dataset_name : String) : List (String × PyVal) :=
  [("userid", .str key),
   ("method", .str "GETPARAMETERLIST"),
   ("datasetname", .str dataset_name),
   ("resultformat", .str fmt)]

/-- `gdp_by_industry`: `year`, `frequency`, `table_id` and `industry` are
each comma-joined when they are lists (`isinstance` checks). -/
def gdp_by_industry_params (key fmt : String)
    (year industry frequency table_id : PyVal) : List (String × PyVal) :=
  [("userid", .str key),
   ("method", .str "GetData"),
   ("datasetname", .str "GDPbyIndustry"),
   ("year", joinIfList year),
   ("resultformat", .str fmt),
   ("industry", joinIfList industry),
   ("frequency", joinIfList frequency),
   ("tableid", joinIfList table_id)]

/-- `underlying_gdp_by_industry`: `year` is joined whenever it differs from
`"ALL"` (so a scalar year is character-joined), `frequency` is joined
unconditionally, and `industry` and `table_id` are inserted untouched (a
list stays a list). -/
def underlying_gdp_by_industry_params (key fmt : String)
    (year industry frequency table_id : PyVal) : List (String × PyVal) :=
  [("userid", .str key),
   ("method", .str "GetData"),
   ("datasetname", .str "underlyingGDPbyIndustry"),
   ("year", joinUnlessAll year),
   ("resultformat", .str fmt),
   ("industry", industry),
   ("frequency", pyJoin frequency),
   ("tableid", table_id)]

/-- `international_trade_services`: `year` is joined whenever it differs
from `"ALL"`, `area_or_country` is joined when it is a list, and
`type_of_service`, `trade_direction`, `affiliation` are inserted untouched. -/
def international_trade_services_params (key fmt : String)
    (type_of_service trade_direction affiliation year area_or_country : PyVal) :
    List (String × PyVal) :=
  [("userid", .str key),
   ("method", .str "GetData"),
   ("datasetname", .str "IntlServTrade"),
   ("year", joinUnlessAll year),
   ("resultformat", .str fmt),
   ("typeofservice", type_of_service),
   ("tradedirection", trade_direction),
   ("affiliation", affiliation),
   ("areaorcountry", joinIfList area_or_country)]

/-- `national_income_and_product_accounts`. -/
def national_income_and_product_accounts_params (key fmt : String)
    (table_name year frequency : PyVal) : List (String × PyVal) :=
  [("userid", .str key),
   ("method", .str "GetData"),
   ("datasetname", .str "NIPA"),
   ("year", joinIfList year),
   ("resultformat", .str fmt),
   ("frequency", joinIfList frequency),
   ("tablename", joinIfList table_name)]

/-- `national_income_and_product_accounts_detail`. -/
def national_income_and_product_accounts_detail_params (key fmt : String)
    (table_name year frequency : PyVal) : List (String × PyVal) :=
  [("userid", .str key),
   ("method", .str "GetData"),
   ("datasetname", .str "NIUnderlyingDetail"),
   ("year", joinIfList year),
   ("resultformat", .str fmt),
   ("frequency", joinIfList frequency),
   ("tablename", joinIfList table_name)]

/-- `fixed_assets`. -/
def fixed_assets_params (key fmt : String)
    (table_name year : PyVal) : List (String × PyVal) :=
  [("userid", .str key),
   ("method", .str "GetData"),
   ("datasetname", .str "FixedAssets"),
   ("year", joinIfList year),
   ("resultformat", .str fmt),
   ("tablename", joinIfList table_name)]

/-- Python `"Yes" if footnotes else "No"` (the two-branch `if` on the
`footnotes` flag). -/
def footnotesStr (footnotes : Bool) : String :=
  if footnotes then "Yes" else "No"

/-- Python `int(b)` on a boolean. -/
def pyIntOfBool (b : Bool) : Int :=
  if b then 1 else 0

/-- `direct_investments_and_multinational_enterprises`: the four
list-or-sentinel filters are comma-joined when lists; `footnotes` is encoded
as the string `"Yes"`/`"No"`. -/
def direct_investments_and_multinational_enterprises_params
    (key fmt direction_of_investment classification : String)
    (series_id year country industry : PyVal) (footnotes : Bool) :
    List (String × PyVal) :=
  [("userid", .str key),
   ("method", .str "GetData"),
   ("datasetname", .str "MNE"),
   ("year", joinIfList year),
   ("country", joinIfList country),
   ("industry", joinIfList industry),
   ("seriesid", joinIfList series_id),
   ("classification", .str classification),
   ("directionofinvestment", .str direction_of_investment),
   ("resultformat", .str fmt),
   ("getfootnotes", .str (footnotesStr footnotes))]

/-- `activities_investments_and_multinational_enterprises`: as above, plus
`states`, and the flags `non_bank_affilates_only` and `ownership_level`
encoded via `int(...)` as the integers `0`/`1`. -/
def activities_investments_and_multinational_enterprises_params
    (key fmt direction_of_investment classification : String)
    (ownership_level non_bank_affilates_only : Bool)
    (series_id states year country industry : PyVal) (footnotes : Bool) :
    List (String × PyVal) :=
  [("userid", .str key),
   ("method", .str "GetData"),
   ("datasetname", .str "MNE"),
   ("year", joinIfList year),
   ("nonbankaffiliatesonly", .int (pyIntOfBool non_bank_affilates_only)),
   ("ownershiplevel", .int (pyIntOfBool ownership_level)),
   ("state", joinIfList states),
   ("country", joinIfList country),
   ("industry", joinIfList industry),
   ("seriesid", joinIfList series_id),
   ("classification", .str classification),
   ("directionofinvestment", .str direction_of_investment),
   ("resultformat", .str fmt),
   ("getfootnotes", .str (footnotesStr footnotes))]

/-- `international_transactions`: `year`, `area_or_country`, `frequency` are
joined when lists; `indicator` is inserted untouched. -/
def international_transactions_params (key fmt : String)
    (indicator area_or_country year frequency : PyVal) : List (String × PyVal) :=
  [("userid", .str key),
   ("method", .str "GetData"),
   ("datasetname", .str "ITA"),
   ("indicator", indicator),
   ("year", joinIfList year),
   ("frequency", joinIfList frequency),
   ("areaorcountry", joinIfList area_or_country),
   ("resultformat", .str fmt)]

/-- `international_investments_positions`: all four filters are joined when
lists. -/
def international_investments_positions_params (key fmt : String)
    (type_of_investment component year frequency : PyVal) : List (String × PyVal) :=
  [("userid", .str key),
   ("method", .str "GetData"),
   ("datasetname", .str "IIP"),
   ("year", joinIfList year),
   ("frequency", joinIfList frequency),
   ("component", joinIfList component),
   ("typeofinvestment", joinIfList type_of_investment),
   ("resultformat", .str fmt)]

/-- `input_output_statstics` (name as in the source): `year` is joined when
a list; `table_id` is joined unconditionally. -/
def input_output_statstics_params (key fmt : String)
    (table_id year : PyVal) : List (String × PyVal) :=
  [("userid", .str key),
   ("method", .str "GetData"),
   ("datasetname", .str "InputOutput"),
   ("year", joinIfList year),
   ("tableid", pyJoin table_id),
   ("resultformat", .str fmt)]

/-- `regional`: `year` and `geo_fips` are joined when lists, `table_name` is
joined unconditionally, and `line_code` is inserted untouched (so an `int`
stays an `int`).  Note the capitalised keys `TableName`, `GeoFips`,
`LineCode`. -/
def regional_params (key fmt : String)
    (table_name line_code geo_fips year : PyVal) : List (String × PyVal) :=
  [("userid", .str key),
   ("method", .str "GetData"),
   ("datasetname", .str "Regional"),
   ("year", joinIfList year),
   ("TableName", pyJoin table_name),
   ("GeoFips", joinIfList geo_fips),
   ("LineCode", line_code),
   ("resultformat", .str fmt)]

/-! ### Dataset method wrappers

Each Python dataset method builds its `params` and then calls
`self._make_request(method="get", params=params)` exactly once, returning
its result; no method assigns any attribute of `self`.  We model a method as
the list of requests it dispatches (always a singleton) paired with the
client state after the call. -/

/-- The single dispatch a dataset method performs. -/
def methodCalls (c : BureauEconomicAnalysisClient) (params : List (String × PyVal)) :
    List PreparedRequest × BureauEconomicAnalysisClient :=
  ([prepareRequest c "get" params], c)

def get_dataset_list (c : BureauEconomicAnalysisClient) :
    List PreparedRequest × BureauEconomicAnalysisClient :=
  methodCalls c (get_dataset_list_params c.api_key c.fmt)

def get_parameters_list (c : BureauEconomicAnalysisClient) (dataset_name : String) :
    List PreparedRequest × BureauEconomicAnalysisClient :=
  methodCalls c (get_parameters_list_params c.api_key c.fmt dataset_name)

def gdp_by_industry (c : BureauEconomicAnalysisClient)
    (year industry frequency table_id : PyVal) :
    List PreparedRequest × BureauEconomicAnalysisClient :=
  methodCalls c (gdp_by_industry_params c.api_key c.fmt year industry frequency table_id)

def underlying_gdp_by_industry (c : BureauEconomicAnalysisClient)
    (year industry frequency table_id : PyVal) :
    List PreparedRequest × BureauEconomicAnalysisClient :=
  methodCalls c
    (underlying_gdp_by_industry_params c.api_key c.fmt year industry frequency table_id)

def international_trade_services (c : BureauEconomicAnalysisClient)
    (type_of_service trade_direction affiliation year area_or_country : PyVal) :
    List PreparedRequest × BureauEconomicAnalysisClient :=
  methodCalls c
    (international_trade_services_params c.api_key c.fmt
      type_of_service trade_direction affiliation year area_or_country)

def national_income_and_product_accounts (c : BureauEconomicAnalysisClient)
    (table_name year frequency : PyVal) :
    List PreparedRequest × BureauEconomicAnalysisClient :=
  methodCalls c
    (national_income_and_product_accounts_params c.api_key c.fmt table_name year frequency)

def national_income_and_product_accounts_detail (c : BureauEconomicAnalysisClient)
    (table_name year frequency : PyVal) :
    List PreparedRequest × BureauEconomicAnalysisClient :=
  methodCalls c
    (national_income_and_product_accounts_detail_params c.api_key c.fmt
      table_name year frequency)

def fixed_assets (c : BureauEconomicAnalysisClient) (table_name year : PyVal) :
    List PreparedRequest × BureauEconomicAnalysisClient :=
  methodCalls c (fixed_assets_params c.api_key c.fmt table_name year)

def direct_investments_and_multinational_enterprises (c : BureauEconomicAnalysisClient)
    (direction_of_investment classification : String)
    (series_id year country industry : PyVal) (footnotes : Bool) :
    List PreparedRequest × BureauEconomicAnalysisClient :=
  methodCalls c
    (direct_investments_and_multinational_enterprises_params c.api_key c.fmt
      direction_of_investment classification series_id year country industry footnotes)

def activities_investments_and_multinational_enterprises (c : BureauEconomicAnalysisClient)
    (direction_of_investment classification : String)
    (ownership_level non_bank_affilates_only : Bool)
    (series_id states year country industry : PyVal) (footnotes : Bool) :
    List PreparedRequest × BureauEconomicAnalysisClient :=
  methodCalls c
    (activities_investments_and_multinational_enterprises_params c.api_key c.fmt
      direction_of_investment classification ownership_level non_bank_affilates_only
      series_id states year country industry footnotes)

def international_transactions (c : BureauEconomicAnalysisClient)
    (indicator area_or_country year frequency : PyVal) :
    List PreparedRequest × BureauEconomicAnalysisClient :=
  methodCalls c
    (international_transactions_params c.api_key c.fmt indicator area_or_country year frequency)

def international_investments_positions (c : BureauEconomicAnalysisClient)
    (type_of_investment component year frequency : PyVal) :
    List PreparedRequest × BureauEconomicAnalysisClient :=
  methodCalls c
    (international_investments_positions_params c.api_key c.fmt
      type_of_investment component year frequency)

def input_output_statstics (c : BureauEconomicAnalysisClient)
    (table_id year : PyVal) :
    List PreparedRequest × BureauEconomicAnalysisClient :=
  methodCalls c (input_output_statstics_params c.api_key c.fmt table_id year)

def regional (c : BureauEconomicAnalysisClient)
    (table_name line_code geo_fips year : PyVal) :
    List PreparedRequest × BureauEconomicAnalysisClient :=
  methodCalls c (regional_params c.api_key c.fmt table_name line_code geo_fips year)

/-- The dummy request used with `List.headD` to name the single request a
dataset method dispatches. -/
def dummyRequest : PreparedRequest :=
  { verb := "", url := "", params := [] }

/-! ### Helper lemmas -/

theorem isStr_str (s : String) : (PyVal.str s).isStr = true := rfl

theorem isStr_pyJoin {v : PyVal} (h : strOrList v = true) : (pyJoin v).isStr = true := by
  cases v <;> simp_all [strOrList, pyJoin, PyVal.isStr]

theorem isStr_joinIfList {v : PyVal} (h : strOrList v = true) : (joinIfList v).isStr = true := by
  cases v <;> simp_all [strOrList, joinIfList, PyVal.isStr]

theorem isStr_joinUnlessAll {v : PyVal} (h : strOrList v = true) :
    (joinUnlessAll v).isStr = true := by
  rw [joinUnlessAll]
  split
  · cases v <;> simp_all [strOrList, PyVal.isStr]
  · exact isStr_pyJoin h

/-! ### Claims -/

/-- C1: evaluation of the code at the inputs where it departs from the claim
that sequence arguments are comma-joined and non-sentinel scalar strings pass
through untouched.  In `underlying_gdp_by_industry` a scalar `year = "2019"`
is character-joined into `"2,0,1,9"` (not left untouched), a list `industry`
is inserted as a list (not comma-joined); in `international_trade_services` a
list `trade_direction` is likewise inserted as a list. -/
theorem C1_join_convention_eval :
    lookupParam "year" (underlying_gdp_by_industry_params "KEY" "JSON"
        (.str "2019") (.str "ALL") (.str "A") (.str "ALL")) = some (.str "2,0,1,9") ∧
    lookupParam "industry" (underlying_gdp_by_industry_params "KEY" "JSON"
        (.list ["2019"]) (.list ["111", "112"]) (.str "A") (.str "ALL")) =
      some (.list ["111", "112"]) ∧
    lookupParam "tradedirection" (international_trade_services_params "KEY" "JSON"
        (.str "ALL") (.list ["Exports", "Imports"]) (.str "ALL") (.str "ALL")
        (.str "AllCountries")) = some (.list ["Exports", "Imports"]) :=
  ⟨rfl, rfl, rfl⟩

/-- C2 counterexample: the claim that no parameter value is a list and none a
non-string scalar fails on the code — `activities_investments_and_multinational_enterprises`
inserts `ownershiplevel` as the integer `1` (via `int(True)`), which is not a
string. -/
theorem C2_counterexample :
    lookupParam "ownershiplevel"
      (activities_investments_and_multinational_enterprises_params "KEY" "JSON"
        "outward" "country" true false (.str "ALL") (.str "ALL") (.str "ALL")
        (.str "ALL") (.str "ALL") true) = some (.int 1) ∧
    (PyVal.int 1).isStr = false :=
  ⟨rfl, rfl⟩

/-- C2 (amended): every parameter value built by a dataset method is a scalar
string, except: `ownershiplevel` and `nonbankaffiliatesonly` in the activities
method, which are the integers `0`/`1`; `LineCode` in `regional`, inserted as
given (an `int` stays an `int`); and the pass-through arguments `industry` and
`tableid` of `underlying_gdp_by_industry`, `typeofservice`, `tradedirection`
and `affiliation` of `international_trade_services`, and `indicator` of
`international_transactions`, which are inserted unconverted (a list stays a
list). -/
theorem C2_scalar_string_values_amended
    (key fmt ds dir cls : String) (b1 b2 b3 : Bool) (v1 v2 v3 v4 v5 lc : PyVal)
    (h1 : strOrList v1 = true) (h2 : strOrList v2 = true) (h3 : strOrList v3 = true)
    (h4 : strOrList v4 = true) (h5 : strOrList v5 = true) :
    allStrVals (get_dataset_list_params key fmt) = true ∧
    allStrVals (get_parameters_list_params key fmt ds) = true ∧
    allStrVals (gdp_by_industry_params key fmt v1 v2 v3 v4) = true ∧
    strValsExcept ["industry", "tableid"]
      (underlying_gdp_by_industry_params key fmt v1 v2 v3 v4) = true ∧
    lookupParam "industry" (underlying_gdp_by_industry_params key fmt v1 v2 v3 v4) =
      some v2 ∧
    lookupParam "tableid" (underlying_gdp_by_industry_params key fmt v1 v2 v3 v4) =
      some v4 ∧
    strValsExcept ["typeofservice", "tradedirection", "affiliation"]
      (international_trade_services_params key fmt v1 v2 v3 v4 v5) = true ∧
    lookupParam "typeofservice"
      (international_trade_services_params key fmt v1 v2 v3 v4 v5) = some v1 ∧
    lookupParam "tradedirection"
      (international_trade_services_params key fmt v1 v2 v3 v4 v5) = some v2 ∧
    lookupParam "affiliation"
      (international_trade_services_params key fmt v1 v2 v3 v4 v5) = some v3 ∧
    allStrVals (national_income_and_product_accounts_params key fmt v1 v2 v3) = true ∧
    allStrVals (national_income_and_product_accounts_detail_params key fmt v1 v2 v3) = true ∧
    allStrVals (fixed_assets_params key fmt v1 v2) = true ∧
    allStrVals (direct_investments_and_multinational_enterprises_params key fmt dir cls
      v1 v2 v3 v4 b3) = true ∧
    strValsExcept ["nonbankaffiliatesonly", "ownershiplevel"]
      (activities_investments_and_multinational_enterprises_params key fmt dir cls b1 b2
        v1 v2 v3 v4 v5 b3) = true ∧
    lookupParam "ownershiplevel"
      (activities_investments_and_multinational_enterprises_params key fmt dir cls b1 b2
        v1 v2 v3 v4 v5 b3) = some (.int (pyIntOfBool b1)) ∧
    lookupParam "nonbankaffiliatesonly"
      (activities_investments_and_multinational_enterprises_params key fmt dir cls b1 b2
        v1 v2 v3 v4 v5 b3) = some (.int (pyIntOfBool b2)) ∧
    strValsExcept ["indicator"]
      (international_transactions_params key fmt v1 v2 v3 v4) = true ∧
    lookupParam "indicator" (international_transactions_params key fmt v1 v2 v3 v4) =
      some v1 ∧
    allStrVals (international_investments_positions_params key fmt v1 v2 v3 v4) = true ∧
    allStrVals (input_output_statstics_params key fmt v1 v2) = true ∧
    strValsExcept ["LineCode"] (regional_params key fmt v1 lc v2 v3) = true ∧
    lookupParam "LineCode" (regional_params key fmt v1 lc v2 v3) = some lc := by
  refine ⟨rfl, rfl, ?_, ?_, rfl, rfl, ?_, rfl, rfl, rfl, ?_, ?_, ?_, ?_, ?_, rfl, rfl,
    ?_, rfl, ?_, ?_, ?_, rfl⟩
  · simp [allStrVals, gdp_by_industry_params, isStr_str, isStr_joinIfList h1,
      isStr_joinIfList h2, isStr_joinIfList h3, isStr_joinIfList h4]
  · simp [strValsExcept, underlying_gdp_by_industry_params, isStr_str,
      isStr_joinUnlessAll h1, isStr_pyJoin h3]
  · simp [strValsExcept, international_trade_services_params, isStr_str,
      isStr_joinUnlessAll h4, isStr_joinIfList h5]
  · simp [allStrVals, national_income_and_product_accounts_params, isStr_str,
      isStr_joinIfList h1, isStr_joinIfList h2, isStr_joinIfList h3]
  · simp [allStrVals, national_income_and_product_accounts_detail_params, isStr_str,
      isStr_joinIfList h1, isStr_joinIfList h2, isStr_joinIfList h3]
  · simp [allStrVals, fixed_assets_params, isStr_str, isStr_joinIfList h1,
      isStr_joinIfList h2]
  · simp [allStrVals, direct_investments_and_multinational_enterprises_params, isStr_str,
      isStr_joinIfList h1, isStr_joinIfList h2, isStr_joinIfList h3, isStr_joinIfList h4]
  · simp [strValsExcept, activities_investments_and_multinational_enterprises_params,
      isStr_str, isStr_joinIfList h1, isStr_joinIfList h2, isStr_joinIfList h3,
      isStr_joinIfList h4, isStr_joinIfList h5]
  · simp [strValsExcept, international_transactions_params, isStr_str,
      isStr_joinIfList h2, isStr_joinIfList h3, isStr_joinIfList h4]
  · simp [allStrVals, international_investments_positions_params, isStr_str,
      isStr_joinIfList h1, isStr_joinIfList h2, isStr_joinIfList h3, isStr_joinIfList h4]
  · simp [allStrVals, input_output_statstics_params, isStr_str, isStr_pyJoin h1,
      isStr_joinIfList h2]
  · simp [strValsExcept, regional_params, isStr_str, isStr_pyJoin h1,
      isStr_joinIfList h2, isStr_joinIfList h3]

/-- C2 witness: the amended theorem applied at concrete inputs. -/
theorem C2_witness :
    allStrVals (gdp_by_industry_params "KEY" "JSON" (.str "ALL") (.str "ALL")
      (.str "A,Q,M") (.str "ALL")) = true :=
  (C2_scalar_string_values_amended "KEY" "JSON" "NIPA" "outward" "country" true true true
    (.str "ALL") (.str "ALL") (.str "A,Q,M") (.str "ALL") (.str "ALL") (.int 1)
    rfl rfl rfl rfl rfl).2.2.1

/-- C3 counterexample: the claim that the transport session is released on
every exit path fails on the code — when `session.send` itself raises (DNS or
connection error), the `close()` statement after it is never reached. -/
theorem C3_counterexample :
    (make_request (mkClient "KEY") "get" [] .raised).sessionClosed = false :=
  rfl

/-- C3 (amended): the session is released before `_make_request` returns or
raises whenever the send yields a response — both on the success path and on
the non-2xx path that raises ConnectionFailure — but when the send itself
raises a transport-level error, the session is not released. -/
theorem C3_session_release_amended (c : BureauEconomicAnalysisClient)
    (method : String) (ps : List (String × PyVal)) (r : HttpResp) :
    (make_request c method ps (.response r)).sessionClosed = true ∧
    (make_request c method ps .raised).sessionClosed = false :=
  ⟨rfl, rfl⟩

/-- C4: when the transport reports a response, `_make_request` returns the
parsed JSON body on a success status with format JSON, returns the raw body
text on a success status with format XML, and raises ConnectionFailure
exactly when the status is not a success. -/
theorem C4_dispatch_result (c : BureauEconomicAnalysisClient) (method : String)
    (ps : List (String × PyVal)) (r : HttpResp)
    (h : c.fmt = "JSON" ∨ c.fmt = "XML") :
    (r.ok = true → c.fmt = "JSON" →
      (make_request c method ps (.response r)).result = .retJson r.jsonBody) ∧
    (r.ok = true → c.fmt = "XML" →
      (make_request c method ps (.response r)).result = .retText r.textBody) ∧
    ((make_request c method ps (.response r)).result = .raiseConnectionError ↔
      r.ok = false) := by
  refine ⟨?_, ?_, ?_⟩
  · intro hok hfmt
    simp [make_request, hok, hfmt]
  · intro hok hfmt
    simp [make_request, hok, hfmt]
  · rcases h with h | h <;> cases hok : r.ok <;> simp [make_request, h, hok]

/-- C4 witness: the theorem applied to a concrete JSON-format client and a
concrete successful response. -/
theorem C4_witness :
    (make_request (mkClient "KEY") "get" []
      (.response { ok := true, jsonBody := .null, textBody := "body" })).result =
      .retJson .null :=
  (C4_dispatch_result (mkClient "KEY") "get" []
    { ok := true, jsonBody := .null, textBody := "body" } (Or.inl rfl)).1 rfl rfl

/-- C5: the format setter stores the uppercased value (and a subsequent
`format` read returns it) when the uppercasing is `"JSON"` or `"XML"`, and
raises InvalidFormat leaving the stored format unchanged for every other
string. -/
theorem C5_format_setter (c : BureauEconomicAnalysisClient) (value : String) :
    ((pyUpper value = "JSON" ∨ pyUpper value = "XML") →
      format_set c value = (none, { c with fmt := pyUpper value }) ∧
      (format_set c value).2.format = pyUpper value) ∧
    (pyUpper value ≠ "JSON" → pyUpper value ≠ "XML" →
      format_set c value = (some .valueError, c) ∧
      (format_set c value).2.format = c.format) := by
  constructor
  · intro h
    rcases h with h | h <;> simp [format_set, h, BureauEconomicAnalysisClient.format]
  · intro h1 h2
    simp [format_set, h1, h2, BureauEconomicAnalysisClient.format]

/-- C5 witness: the theorem applied at a valid input (stored uppercased) and
an invalid one (ValueError, client unchanged). -/
theorem C5_witness :
    format_set (mkClient "KEY") "json" =
      (none, { mkClient "KEY" with fmt := pyUpper "json" }) ∧
    format_set (mkClient "KEY") "csv" = (some .valueError, mkClient "KEY") :=
  ⟨((C5_format_setter (mkClient "KEY") "json").1 (Or.inl (by decide))).1,
   ((C5_format_setter (mkClient "KEY") "csv").2 (by decide) (by decide)).1⟩

/-- C6: in the two direct-investment dataset methods the boolean flags are
encoded per-field: `footnotes = True` yields `getfootnotes = "Yes"` and
`False` yields `"No"` (in both methods), while `ownership_level` and
`non_bank_affilates_only` are encoded as the integers `1`/`0`. -/
theorem C6_boolean_flag_encodings (key fmt dir cls : String) (b1 b2 b3 : Bool)
    (v1 v2 v3 v4 v5 : PyVal) :
    lookupParam "getfootnotes"
      (direct_investments_and_multinational_enterprises_params key fmt dir cls
        v1 v2 v3 v4 true) = some (.str "Yes") ∧
    lookupParam "getfootnotes"
      (direct_investments_and_multinational_enterprises_params key fmt dir cls
        v1 v2 v3 v4 false) = some (.str "No") ∧
    lookupParam "getfootnotes"
      (activities_investments_and_multinational_enterprises_params key fmt dir cls
        b1 b2 v1 v2 v3 v4 v5 true) = some (.str "Yes") ∧
    lookupParam "getfootnotes"
      (activities_investments_and_multinational_enterprises_params key fmt dir cls
        b1 b2 v1 v2 v3 v4 v5 false) = some (.str "No") ∧
    lookupParam "ownershiplevel"
      (activities_investments_and_multinational_enterprises_params key fmt dir cls
        true b2 v1 v2 v3 v4 v5 b3) = some (.int 1) ∧
    lookupParam "ownershiplevel"
      (activities_investments_and_multinational_enterprises_params key fmt dir cls
        false b2 v1 v2 v3 v4 v5 b3) = some (.int 0) ∧
    lookupParam "nonbankaffiliatesonly"
      (activities_investments_and_multinational_enterprises_params key fmt dir cls
        b1 true v1 v2 v3 v4 v5 b3) = some (.int 1) ∧
    lookupParam "nonbankaffiliatesonly"
      (activities_investments_and_multinational_enterprises_params key fmt dir cls
        b1 false v1 v2 v3 v4 v5 b3) = some (.int 0) :=
  ⟨rfl, rfl, rfl, rfl, rfl, rfl, rfl, rfl⟩

/-- C7: constructing a client with a non-empty API key sets the authorized
flag, and `gdp_by_industry(year=["2019","2018"], industry="52",
frequency="A")` (default `table_id`) issues exactly one GET request whose
parameters contain `datasetname="GDPbyIndustry"`, `year="2019,2018"`,
`industry="52"`, `frequency="A"`, `tableid="ALL"`. -/
theorem C7_gdp_by_industry_scenario (key : String) (h : key ≠ "") :
    (mkClient key).authstate = true ∧
    (gdp_by_industry (mkClient key) (.list ["2019", "2018"]) (.str "52") (.str "A")
      (.str "ALL")).1.length = 1 ∧
    ((gdp_by_industry (mkClient key) (.list ["2019", "2018"]) (.str "52") (.str "A")
      (.str "ALL")).1.headD dummyRequest).verb = "GET" ∧
    lookupParam "datasetname"
      ((gdp_by_industry (mkClient key) (.list ["2019", "2018"]) (.str "52") (.str "A")
        (.str "ALL")).1.headD dummyRequest).params = some (.str "GDPbyIndustry") ∧
    lookupParam "year"
      ((gdp_by_industry (mkClient key) (.list ["2019", "2018"]) (.str "52") (.str "A")
        (.str "ALL")).1.headD dummyRequest).params = some (.str "2019,2018") ∧
    lookupParam "industry"
      ((gdp_by_industry (mkClient key) (.list ["2019", "2018"]) (.str "52") (.str "A")
        (.str "ALL")).1.headD dummyRequest).params = some (.str "52") ∧
    lookupParam "frequency"
      ((gdp_by_industry (mkClient key) (.list ["2019", "2018"]) (.str "52") (.str "A")
        (.str "ALL")).1.headD dummyRequest).params = some (.str "A") ∧
    lookupParam "tableid"
      ((gdp_by_industry (mkClient key) (.list ["2019", "2018"]) (.str "52") (.str "A")
        (.str "ALL")).1.headD dummyRequest).params = some (.str "ALL") := by
  refine ⟨?_, rfl, rfl, rfl, rfl, rfl, rfl, rfl⟩
  simp only [mkClient, bne_iff_ne, ne_eq]
  exact h

/-- C7 witness: the scenario at the concrete key `"TESTKEY"`. -/
theorem C7_witness :
    (mkClient "TESTKEY").authstate = true ∧
    (gdp_by_industry (mkClient "TESTKEY") (.list ["2019", "2018"]) (.str "52") (.str "A")
      (.str "ALL")).1.length = 1 ∧
    ((gdp_by_industry (mkClient "TESTKEY") (.list ["2019", "2018"]) (.str "52") (.str "A")
      (.str "ALL")).1.headD dummyRequest).verb = "GET" ∧
    lookupParam "datasetname"
      ((gdp_by_industry (mkClient "TESTKEY") (.list ["2019", "2018"]) (.str "52") (.str "A")
        (.str "ALL")).1.headD dummyRequest).params = some (.str "GDPbyIndustry") ∧
    lookupParam "year"
      ((gdp_by_industry (mkClient "TESTKEY") (.list ["2019", "2018"]) (.str "52") (.str "A")
        (.str "ALL")).1.headD dummyRequest).params = some (.str "2019,2018") ∧
    lookupParam "industry"
      ((gdp_by_industry (mkClient "TESTKEY") (.list ["2019", "2018"]) (.str "52") (.str "A")
        (.str "ALL")).1.headD dummyRequest).params = some (.str "52") ∧
    lookupParam "frequency"
      ((gdp_by_industry (mkClient "TESTKEY") (.list ["2019", "2018"]) (.str "52") (.str "A")
        (.str "ALL")).1.headD dummyRequest).params = some (.str "A") ∧
    lookupParam "tableid"
      ((gdp_by_industry (mkClient "TESTKEY") (.list ["2019", "2018"]) (.str "52") (.str "A")
        (.str "ALL")).1.headD dummyRequest).params = some (.str "ALL") :=
  C7_gdp_by_industry_scenario "TESTKEY" (by decide)

/-- C8: `regional(table_name=["CAINC1"], line_code=1, geo_fips=["COUNTY"],
year=["2012","2013"])` builds a parameter mapping containing
`datasetname="Regional"`, `TableName="CAINC1"`, `GeoFips="COUNTY"`,
`LineCode=1` (the integer), and `year="2012,2013"`. -/
theorem C8_regional_scenario (c : BureauEconomicAnalysisClient) :
    (regional c (.list ["CAINC1"]) (.int 1) (.list ["COUNTY"])
      (.list ["2012", "2013"])).1.length = 1 ∧
    lookupParam "datasetname"
      ((regional c (.list ["CAINC1"]) (.int 1) (.list ["COUNTY"])
        (.list ["2012", "2013"])).1.headD dummyRequest).params = some (.str "Regional") ∧
    lookupParam "TableName"
      ((regional c (.list ["CAINC1"]) (.int 1) (.list ["COUNTY"])
        (.list ["2012", "2013"])).1.headD dummyRequest).params = some (.str "CAINC1") ∧
    lookupParam "GeoFips"
      ((regional c (.list ["CAINC1"]) (.int 1) (.list ["COUNTY"])
        (.list ["2012", "2013"])).1.headD dummyRequest).params = some (.str "COUNTY") ∧
    lookupParam "LineCode"
      ((regional c (.list ["CAINC1"]) (.int 1) (.list ["COUNTY"])
        (.list ["2012", "2013"])).1.headD dummyRequest).params = some (.int 1) ∧
    lookupParam "year"
      ((regional c (.list ["CAINC1"]) (.int 1) (.list ["COUNTY"])
        (.list ["2012", "2013"])).1.headD dummyRequest).params = some (.str "2012,2013") :=
  ⟨rfl, rfl, rfl, rfl, rfl, rfl⟩

/-- C9 counterexample: the claim that every dataset method's mapping contains
the key `userid` fails on `get_dataset_list`, which spells the key `UserID`
— the lowercase lookup finds nothing. -/
theorem C9_counterexample :
    lookupParam "userid" (get_dataset_list_params "KEY" "JSON") = none :=
  rfl

/-- C9 (amended): every dataset method's parameter mapping contains the
fixed keys `userid` and `resultformat` — except `get_dataset_list`, which
spells them `UserID` and `ResultFormat` — and a `method` key whose value is
`"GetData"` for every data method, `"GETDATASETLIST"` for the dataset-list
method and `"GETPARAMETERLIST"` for the parameters-list method. -/
theorem C9_fixed_keys_amended (key fmt ds dir cls : String) (b1 b2 b3 : Bool)
    (v1 v2 v3 v4 v5 lc : PyVal) :
    lookupParam "userid" (gdp_by_industry_params key fmt v1 v2 v3 v4) = some (.str key) ∧
    lookupParam "resultformat" (gdp_by_industry_params key fmt v1 v2 v3 v4) = some (.str fmt) ∧
    lookupParam "method" (gdp_by_industry_params key fmt v1 v2 v3 v4) = some (.str "GetData") ∧
    lookupParam "userid" (underlying_gdp_by_industry_params key fmt v1 v2 v3 v4) =
      some (.str key) ∧
    lookupParam "resultformat" (underlying_gdp_by_industry_params key fmt v1 v2 v3 v4) =
      some (.str fmt) ∧
    lookupParam "method" (underlying_gdp_by_industry_params key fmt v1 v2 v3 v4) =
      some (.str "GetData") ∧
    lookupParam "userid" (international_trade_services_params key fmt v1 v2 v3 v4 v5) =
      some (.str key) ∧
    lookupParam "resultformat" (international_trade_services_params key fmt v1 v2 v3 v4 v5) =
      some (.str fmt) ∧
    lookupParam "method" (international_trade_services_params key fmt v1 v2 v3 v4 v5) =
      some (.str "GetData") ∧
    lookupParam "userid" (national_income_and_product_accounts_params key fmt v1 v2 v3) =
      some (.str key) ∧
    lookupParam "resultformat" (national_income_and_product_accounts_params key fmt v1 v2 v3) =
      some (.str fmt) ∧
    lookupParam "method" (national_income_and_product_accounts_params key fmt v1 v2 v3) =
      some (.str "GetData") ∧
    lookupParam "userid"
      (national_income_and_product_accounts_detail_params key fmt v1 v2 v3) =
      some (.str key) ∧
    lookupParam "resultformat"
      (national_income_and_product_accounts_detail_params key fmt v1 v2 v3) =
      some (.str fmt) ∧
    lookupParam "method"
      (national_income_and_product_accounts_detail_params key fmt v1 v2 v3) =
      some (.str "GetData") ∧
    lookupParam "userid" (fixed_assets_params key fmt v1 v2) = some (.str key) ∧
    lookupParam "resultformat" (fixed_assets_params key fmt v1 v2) = some (.str fmt) ∧
    lookupParam "method" (fixed_assets_params key fmt v1 v2) = some (.str "GetData") ∧
    lookupParam "userid"
      (direct_investments_and_multinational_enterprises_params key fmt dir cls
        v1 v2 v3 v4 b3) = some (.str key) ∧
    lookupParam "resultformat"
      (direct_investments_and_multinational_enterprises_params key fmt dir cls
        v1 v2 v3 v4 b3) = some (.str fmt) ∧
    lookupParam "method"
      (direct_investments_and_multinational_enterprises_params key fmt dir cls
        v1 v2 v3 v4 b3) = some (.str "GetData") ∧
    lookupParam "userid"
      (activities_investments_and_multinational_enterprises_params key fmt dir cls b1 b2
        v1 v2 v3 v4 v5 b3) = some (.str key) ∧
    lookupParam "resultformat"
      (activities_investments_and_multinational_enterprises_params key fmt dir cls b1 b2
        v1 v2 v3 v4 v5 b3) = some (.str fmt) ∧
    lookupParam "method"
      (activities_investments_and_multinational_enterprises_params key fmt dir cls b1 b2
        v1 v2 v3 v4 v5 b3) = some (.str "GetData") ∧
    lookupParam "userid" (international_transactions_params key fmt v1 v2 v3 v4) =
      some (.str key) ∧
    lookupParam "resultformat" (international_transactions_params key fmt v1 v2 v3 v4) =
      some (.str fmt) ∧
    lookupParam "method" (international_transactions_params key fmt v1 v2 v3 v4) =
      some (.str "GetData") ∧
    lookupParam "userid" (international_investments_positions_params key fmt v1 v2 v3 v4) =
      some (.str key) ∧
    lookupParam "resultformat"
      (international_investments_positions_params key fmt v1 v2 v3 v4) = some (.str fmt) ∧
    lookupParam "method" (international_investments_positions_params key fmt v1 v2 v3 v4) =
      some (.str "GetData") ∧
    lookupParam "userid" (input_output_statstics_params key fmt v1 v2) = some (.str key) ∧
    lookupParam "resultformat" (input_output_statstics_params key fmt v1 v2) =
      some (.str fmt) ∧
    lookupParam "method" (input_output_statstics_params key fmt v1 v2) =
      some (.str "GetData") ∧
    lookupParam "userid" (regional_params key fmt v1 lc v2 v3) = some (.str key) ∧
    lookupParam "resultformat" (regional_params key fmt v1 lc v2 v3) = some (.str fmt) ∧
    lookupParam "method" (regional_params key fmt v1 lc v2 v3) = some (.str "GetData") ∧
    lookupParam "userid" (get_parameters_list_params key fmt ds) = some (.str key) ∧
    lookupParam "resultformat" (get_parameters_list_params key fmt ds) = some (.str fmt) ∧
    lookupParam "method" (get_parameters_list_params key fmt ds) =
      some (.str "GETPARAMETERLIST") ∧
    lookupParam "userid" (get_dataset_list_params key fmt) = none ∧
    lookupParam "UserID" (get_dataset_list_params key fmt) = some (.str key) ∧
    lookupParam "resultformat" (get_dataset_list_params key fmt) = none ∧
    lookupParam "ResultFormat" (get_dataset_list_params key fmt) = some (.str fmt) ∧
    lookupParam "method" (get_dataset_list_params key fmt) = some (.str "GETDATASETLIST") :=
  ⟨rfl, rfl, rfl, rfl, rfl, rfl, rfl, rfl, rfl, rfl, rfl, rfl, rfl, rfl, rfl, rfl, rfl,
   rfl, rfl, rfl, rfl, rfl, rfl, rfl, rfl, rfl, rfl, rfl, rfl, rfl, rfl, rfl, rfl, rfl,
   rfl, rfl, rfl, rfl, rfl, rfl, rfl, rfl, rfl, rfl⟩

/-- C10: no dataset method, nor the generic request routine, changes any
client field (base URL, API key, format, authorized flag): each threads the
client through unchanged; and the format setter — the one mutating operation
— changes at most the stored format, never the other three fields. -/
theorem C10_frame_no_mutation (c : BureauEconomicAnalysisClient)
    (ds dir cls mth v : String) (b1 b2 b3 : Bool) (v1 v2 v3 v4 v5 lc : PyVal)
    (ps : List (String × PyVal)) (t : TransportOutcome) :
    (get_dataset_list c).2 = c ∧
    (get_parameters_list c ds).2 = c ∧
    (gdp_by_industry c v1 v2 v3 v4).2 = c ∧
    (underlying_gdp_by_industry c v1 v2 v3 v4).2 = c ∧
    (international_trade_services c v1 v2 v3 v4 v5).2 = c ∧
    (national_income_and_product_accounts c v1 v2 v3).2 = c ∧
    (national_income_and_product_accounts_detail c v1 v2 v3).2 = c ∧
    (fixed_assets c v1 v2).2 = c ∧
    (direct_investments_and_multinational_enterprises c dir cls v1 v2 v3 v4 b3).2 = c ∧
    (activities_investments_and_multinational_enterprises c dir cls b1 b2
      v1 v2 v3 v4 v5 b3).2 = c ∧
    (international_transactions c v1 v2 v3 v4).2 = c ∧
    (international_investments_positions c v1 v2 v3 v4).2 = c ∧
    (input_output_statstics c v1 v2).2 = c ∧
    (regional c v1 lc v2 v3).2 = c ∧
    (make_request c mth ps t).selfAfter = c ∧
    (format_set c v).2.bea_url = c.bea_url ∧
    (format_set c v).2.api_key = c.api_key ∧
    (format_set c v).2.authstate = c.authstate := by
  refine ⟨rfl, rfl, rfl, rfl, rfl, rfl, rfl, rfl, rfl, rfl, rfl, rfl, rfl, rfl, rfl,
    ?_, ?_, ?_⟩ <;>
    (simp only [format_set]; split <;> rfl)

end PyBEA
